import Mathlib

/-!
Shallow embedding of the `event-hub` backend: the `accounts` app
(registration, login, logout over a user store and token store) and the
`events` app (CRUD over events with filtering, search and pagination).

User, Category and Event mirror `accounts`' custom user model and
`events/models.py`; the endpoint functions mirror the view classes in
`accounts/views.py` and `events/views.py`. Stores are modelled as lists,
machine-managed ids as `Nat`, timestamps are omitted (system-managed,
read-only, and no claim mentions them). Each endpoint takes the caller as
`Option Nat` (`none` = unauthenticated) and returns `Except ApiError`
or a response structure carrying the HTTP status code.
-/

/-- The error taxonomy of the service and its 1:1 mapping to HTTP status
codes (spec §7). -/
inductive ApiError where
  | validationError
  | authenticationError
  | forbiddenError
  | notFoundError
deriving Repr, DecidableEq

def statusOf : ApiError → Nat
  | .validationError => 400
  | .authenticationError => 401
  | .forbiddenError => 403
  | .notFoundError => 404

/-- `accounts`' user model: email-keyed identity with a password hash
(the hash is abstracted to the stored credential string). -/
structure CustomUser where
  id : Nat
  email : String
  password : String
deriving Repr, DecidableEq

/-- `events/models.py` `Category`: unique name, many-to-many with Event. -/
structure Category where
  id : Nat
  name : String
deriving Repr, DecidableEq

/-- `events/models.py` `Event`: organizer is a foreign key to the user model
with `on_delete=CASCADE`; categories hold the ids of related `Category`
rows. The image field and the auto-managed timestamps are omitted. -/
structure Event where
  id : Nat
  organizer : Nat
  name : String
  date : Nat
  location : String
  description : String
  categories : List Nat
deriving Repr, DecidableEq

/-- An incoming event payload as the serializer sees it: every writable
field may be absent, and a client may also send an `organizer` value even
though `EventSerializer` declares that field read-only. -/
structure EventPayload where
  name : Option String
  date : Option Nat
  location : Option String
  description : Option String
  categories : Option (List Nat)
  organizer : Option Nat
deriving Repr, DecidableEq

namespace EventSerializer

/-- The `fields` list of `EventSerializer.Meta` (`events/serializers.py`). -/
def fields : List String :=
  ["id", "name", "date", "location", "description", "image", "categories",
   "category_names", "created_at", "updated_at", "organizer"]

/-- The `read_only_fields` list of `EventSerializer.Meta`
(`events/serializers.py`). -/
def read_only_fields : List String :=
  ["id", "created_at", "updated_at", "category_names", "organizer"]

/-- Field validation: `name`, `date` and `location` are required model
fields (no `blank=True`), `description` and `categories` are optional. -/
def validFields (p : EventPayload) : Option (String × Nat × String) :=
  match p.name, p.date, p.location with
  | some n, some d, some l => if n = "" ∨ l = "" then none else some (n, d, l)
  | _, _, _ => none

/-- `ModelSerializer` update semantics on a full PUT: writable supplied
fields replace the stored values, optional fields left out keep their
stored values, and the read-only fields (`id`, `organizer`, timestamps)
are never touched. -/
def applyValidated (e : Event) (p : EventPayload) (n : String) (d : Nat)
    (l : String) : Event :=
  { e with
    name := n, date := d, location := l,
    description := (p.description).getD e.description,
    categories := (p.categories).getD e.categories }

end EventSerializer

/-- The queryset lookup behind `get_object` on the detail view: find the
event with the requested primary key. -/
def getObject (store : List Event) (i : Nat) : Option Event :=
  store.find? (fun e => e.id == i)

/-- Fresh primary key for a created event. -/
def nextId (store : List Event) : Nat :=
  (store.map (fun e => e.id)).foldr max 0 + 1

namespace IsOrganizerOrReadOnly

/-- Modelled from the spec: `events/permissions.py` defines
`IsOrganizerOrReadOnly`, imported by `events/views.py` but absent from the
sources. Per spec §4.3, read access needs only authentication while write
access requires the caller to equal the event's organizer. -/
def hasObjectPermission (write : Bool) (caller : Nat) (e : Event) : Bool :=
  if write then caller == e.organizer else true

end IsOrganizerOrReadOnly

/-- Lower-case a string, character by character, for the `i`-prefixed
(case-insensitive) lookups. -/
def lowered (s : String) : List Char :=
  s.toList.map Char.toLower

/-- Case-insensitive prefix match, the semantics of the `^name` entry in
`search_fields` (`events/views.py` line 16). -/
def iStartsWith (hay needle : String) : Bool :=
  (lowered needle).isPrefixOf (lowered hay)

/-- Does `needle` occur as a contiguous run inside `hay`? -/
def listContains (hay needle : List Char) : Bool :=
  match hay with
  | [] => needle.isEmpty
  | _ :: t => needle.isPrefixOf hay || listContains t needle

/-- Case-insensitive substring match, the semantics of the plain
`description` and `location` entries in `search_fields`. -/
def iContains (hay needle : String) : Bool :=
  listContains (lowered hay) (lowered needle)

/-- A search term matches an event when ANY of the three declared search
fields matches: `name` by case-insensitive prefix, `description` and
`location` by case-insensitive substring
(`search_fields = [caret name, description, location]`). -/
def searchMatch (q : String) (e : Event) : Bool :=
  iStartsWith e.name q || iContains e.description q || iContains e.location q

/-- Does the event have a related category whose name is `n`
(the `categories__name` filter traverses the many-to-many relation)? -/
def hasCategoryNamed (cats : List Category) (e : Event) (n : String) : Bool :=
  e.categories.any (fun cid => cats.any (fun c => c.id == cid && c.name == n))

/-- The `filterset_fields = [location, categories__name]` backend: each
supplied filter field is an exact match, distinct fields combine by AND. -/
def applyFilters (cats : List Category) (loc catName : Option String)
    (evs : List Event) : List Event :=
  evs.filter (fun e =>
    (match loc with
     | none => true
     | some l => e.location == l)
    &&
    (match catName with
     | none => true
     | some n => hasCategoryNamed cats e n))

/-- The search backend: with a `search` parameter the filtered queryset is
narrowed to events matching the term; without one it is left unchanged. -/
def applySearch (q : Option String) (evs : List Event) : List Event :=
  match q with
  | none => evs
  | some s => evs.filter (searchMatch s)

/-- Modelled from the spec: the project settings module configuring
`PageNumberPagination` is absent from the sources; spec §4.2 fixes the
page size at 10 as a non-client-configurable system constant. -/
def PAGE_SIZE : Nat := 10

/-- The paginated list response body: total count, next/previous page
links (modelled by their page numbers) and the results page. -/
structure Page where
  count : Nat
  next : Option Nat
  previous : Option Nat
  results : List Event
deriving Repr, DecidableEq

/-- Page-number pagination over the (already filtered and searched)
event list: page numbers start at 1, an out-of-range page is rejected
(`none`, rendered as 404), page 1 of an empty list is valid and empty. -/
def paginate (evs : List Event) (page : Nat) : Option Page :=
  if page = 0 then none
  else if (page - 1) * PAGE_SIZE < evs.length ∨ (page = 1 ∧ evs.length = 0) then
    some
      { count := evs.length,
        next := if page * PAGE_SIZE < evs.length then some (page + 1) else none,
        previous := if 1 < page then some (page - 1) else none,
        results := (evs.drop ((page - 1) * PAGE_SIZE)).take PAGE_SIZE }
  else none

namespace EventListCreateView

/-- `GET /events`: requires authentication; returns the full event
collection narrowed by the exact-match filters and then by the search
term (framework backends run filters first, then search). -/
def get (cats : List Category) (store : List Event) (caller : Option Nat)
    (loc catName q : Option String) : Except ApiError (List Event) :=
  match caller with
  | none => .error .authenticationError
  | some _ => .ok (applySearch q (applyFilters cats loc catName store))

/-- `POST /events`: requires authentication; validates the payload, then
`perform_create` saves with `organizer=self.request.user`
(`events/views.py` lines 19-20) — any client-supplied organizer value in
the payload is read-only in the serializer and never reaches the save. -/
def post (store : List Event) (caller : Option Nat) (p : EventPayload) :
    Except ApiError (List Event × Event) :=
  match caller with
  | none => .error .authenticationError
  | some c =>
    match EventSerializer.validFields p with
    | none => .error .validationError
    | some (n, d, l) =>
      let e : Event :=
        { id := nextId store, organizer := c, name := n, date := d,
          location := l,
          description := (p.description).getD "",
          categories := (p.categories).getD [] }
      .ok (store ++ [e], e)

end EventListCreateView

namespace EventDetailView

/-- `PUT /events/{id}` (`EventDetailView`, `events/views.py` lines 22-31):
authentication is checked first (401), then `get_object` looks the id up
in the queryset — an unknown id is a 404 — and only then runs the object
permission `IsOrganizerOrReadOnly` (403); a permitted caller's payload is
validated (400) and applied, leaving every other event untouched. -/
def put (store : List Event) (caller : Option Nat) (i : Nat)
    (p : EventPayload) : Except ApiError (List Event × Event) :=
  match caller with
  | none => .error .authenticationError
  | some c =>
    match getObject store i with
    | none => .error .notFoundError
    | some e =>
      if IsOrganizerOrReadOnly.hasObjectPermission true c e then
        match EventSerializer.validFields p with
        | none => .error .validationError
        | some (n, d, l) =>
          let e2 := EventSerializer.applyValidated e p n d l
          .ok (store.map (fun x => if x.id == i then e2 else x), e2)
      else .error .forbiddenError

/-- `DELETE /events/{id}`: same check order as PUT — authentication, then
existence (404), then ownership (403) — and on success removes the record
permanently. -/
def delete (store : List Event) (caller : Option Nat) (i : Nat) :
    Except ApiError (List Event) :=
  match caller with
  | none => .error .authenticationError
  | some c =>
    match getObject store i with
    | none => .error .notFoundError
    | some e =>
      if IsOrganizerOrReadOnly.hasObjectPermission true c e then
        .ok (store.filter (fun x => !(x.id == i)))
      else .error .forbiddenError

end EventDetailView

/-- The token store: pairs of (owner user id, opaque key). The DRF token
model binds each token 1:1 to a user. -/
abbrev TokenStore := List (Nat × String)

/-- Look up the live token key of a user, if any. -/
def findToken (ts : TokenStore) (uid : Nat) : Option String :=
  (ts.find? (fun t => t.1 == uid)).map (fun t => t.2)

/-- Delete a user's token; deleting an absent token is a no-op, which is
exactly what `UserLogoutView.post`'s `try/except pass` achieves. -/
def removeToken (ts : TokenStore) (uid : Nat) : TokenStore :=
  ts.filter (fun t => !(t.1 == uid))

/-- `Token.objects.get_or_create(user=user)`: return the user's existing
token unchanged, or insert a freshly generated key for them.  The opaque
key generator is abstracted as the `fresh` argument. -/
def getOrCreateToken (ts : TokenStore) (uid : Nat) (fresh : String) :
    String × TokenStore :=
  match ts.find? (fun t => t.1 == uid) with
  | some t => (t.2, ts)
  | none => (fresh, (uid, fresh) :: ts)

/-- Modelled from the spec: `accounts/serializers.py`
(`UserLoginSerializer`) is absent from the sources; per spec §4.1 it
validates the credentials against the user store — unknown email or a
wrong password means the serializer is not valid. -/
def authenticate (users : List CustomUser) (email pw : String) :
    Option CustomUser :=
  match users.find? (fun u => u.email == email) with
  | none => none
  | some u => if u.password == pw then some u else none

/-- Response of the register/login endpoints: HTTP status, the token key
on success, and the resulting user and token stores. -/
structure AuthResponse where
  status : Nat
  token : Option String
  users : List CustomUser
  tokens : TokenStore
deriving Repr, DecidableEq

namespace UserRegistrationView

/-- `POST /register` (`accounts/views.py` lines 15-24): if the serializer
is valid the user is saved, a token is get-or-created and 201 returned
with `{token, user}`; otherwise the serializer errors are returned with
status 400.  Serializer validity is modelled from the spec: the email
must not be taken (the password policy is abstracted away). -/
def post (users : List CustomUser) (ts : TokenStore) (email pw : String)
    (newId : Nat) (fresh : String) : AuthResponse :=
  if users.any (fun u => u.email == email) then
    { status := 400, token := none, users := users, tokens := ts }
  else
    let u : CustomUser := { id := newId, email := email, password := pw }
    let r := getOrCreateToken ts newId fresh
    { status := 201, token := some r.1, users := users ++ [u],
      tokens := r.2 }

end UserRegistrationView

namespace UserLoginView

/-- `POST /login` (`accounts/views.py` lines 33-43): when the login
serializer validates the credentials, a session is established, a token is
get-or-created and 200 returned with `{token, user}`; when it does not,
the view returns `serializer.errors` with `status.HTTP_400_BAD_REQUEST`. -/
def post (users : List CustomUser) (ts : TokenStore) (email pw : String)
    (fresh : String) : AuthResponse :=
  match authenticate users email pw with
  | none => { status := 400, token := none, users := users, tokens := ts }
  | some u =>
    let r := getOrCreateToken ts u.id fresh
    { status := 200, token := some r.1, users := users, tokens := r.2 }

end UserLoginView

/-- Response of the logout endpoint: HTTP status, the `detail` message and
the resulting token store. -/
structure LogoutResponse where
  status : Nat
  detail : String
  tokens : TokenStore
deriving Repr, DecidableEq

namespace UserLogoutView

/-- `POST /logout` (`accounts/views.py` lines 51-59): requires
authentication; deletes the caller's token, silently tolerating its
absence (`except (AttributeError, Token.DoesNotExist): pass`), clears the
session and always answers 200 with the same detail message. -/
def post (ts : TokenStore) (caller : Option Nat) : LogoutResponse :=
  match caller with
  | none => { status := 401, detail := "", tokens := ts }
  | some uid =>
    { status := 200, detail := "Successfully logged out.",
      tokens := removeToken ts uid }

end UserLogoutView

/-- Deleting a user row: the `on_delete=CASCADE` on `Event.organizer`
(`events/models.py` line 20) makes the store cascade the deletion to
every event organized by that user. -/
def deleteUser (users : List CustomUser) (store : List Event) (uid : Nat) :
    List CustomUser × List Event :=
  (users.filter (fun u => !(u.id == uid)),
   store.filter (fun e => !(e.organizer == uid)))

/-- The token-uniqueness invariant: no two live tokens share an owner. -/
def wfTokens (ts : TokenStore) : Prop :=
  (ts.map Prod.fst).Nodup

instance (ts : TokenStore) : Decidable (wfTokens ts) := by
  unfold wfTokens; infer_instance

/-- The referential invariant of the data model: every stored event's
organizer is an existing user (spec §3: an event is never ownerless). -/
def organizerValid (users : List CustomUser) (store : List Event) : Prop :=
  ∀ e ∈ store, ∃ u ∈ users, u.id = e.organizer

instance (users : List CustomUser) (store : List Event) :
    Decidable (organizerValid users store) := by
  unfold organizerValid; infer_instance

/-- A concrete event used to instantiate the universally quantified
theorems below. -/
def sampleEvent : Event :=
  { id := 1, organizer := 1, name := "Event 1", date := 1,
    location := "Nairobi", description := "Description for event 1",
    categories := [] }

/-- A concrete valid payload used to instantiate the theorems below. -/
def samplePayload : EventPayload :=
  { name := some "Updated Event", date := some 5,
    location := some "Updated Location",
    description := some "Updated description", categories := none,
    organizer := none }

/-- Claim C1: for every existing event and every authenticated caller who
is not its organizer, update and delete fail with `forbiddenError`
(HTTP 403) and the store is left unchanged (an error result carries no new
store); update and delete succeed only when the caller equals the
organizer, and delete then succeeds outright. -/
theorem detail_view_owner_gate (store : List Event) (i c : Nat) (e : Event)
    (p : EventPayload) (he : getObject store i = some e) :
    (c ≠ e.organizer →
      EventDetailView.put store (some c) i p = .error .forbiddenError ∧
      EventDetailView.delete store (some c) i = .error .forbiddenError) ∧
    statusOf .forbiddenError = 403 ∧
    (∀ s2 e2, EventDetailView.put store (some c) i p = .ok (s2, e2) →
      c = e.organizer) ∧
    (∀ s2, EventDetailView.delete store (some c) i = .ok s2 →
      c = e.organizer) ∧
    (c = e.organizer →
      EventDetailView.delete store (some c) i =
        .ok (store.filter (fun x => !(x.id == i)))) := by
  refine ⟨fun h => ?_, rfl, fun s2 e2 hok => ?_, fun s2 hok => ?_,
    fun h => ?_⟩
  · constructor <;>
      simp [EventDetailView.put, EventDetailView.delete, he,
        IsOrganizerOrReadOnly.hasObjectPermission, h]
  · by_contra hne
    simp [EventDetailView.put, he,
      IsOrganizerOrReadOnly.hasObjectPermission, hne] at hok
  · by_contra hne
    simp [EventDetailView.delete, he,
      IsOrganizerOrReadOnly.hasObjectPermission, hne] at hok
  · simp [EventDetailView.delete, he,
      IsOrganizerOrReadOnly.hasObjectPermission, h]

/-- Claim C3: for every id absent from the store and every authenticated
caller, update and delete fail with `notFoundError` (HTTP 404) — the
existence check runs before any ownership check, so even a caller who
owns nothing gets 404, never 403, on an unknown id. -/
theorem detail_view_unknown_id (store : List Event) (i c : Nat)
    (p : EventPayload) (he : getObject store i = none) :
    EventDetailView.put store (some c) i p = .error .notFoundError ∧
    EventDetailView.delete store (some c) i = .error .notFoundError ∧
    statusOf .notFoundError = 404 := by
  refine ⟨?_, ?_, rfl⟩ <;>
    simp [EventDetailView.put, EventDetailView.delete, he]

/-- Witness for C1: user 2 is not the organizer of `sampleEvent` (user 1),
so both mutations are rejected with 403. -/
theorem detail_view_owner_gate_witness :
    EventDetailView.put [sampleEvent] (some 2) 1 samplePayload =
      .error .forbiddenError ∧
    EventDetailView.delete [sampleEvent] (some 2) 1 =
      .error .forbiddenError :=
  (detail_view_owner_gate [sampleEvent] 1 2 sampleEvent samplePayload
    rfl).1 (by decide)

/-- Witness for C3: id 999 is unknown, so update and delete answer 404. -/
theorem detail_view_unknown_id_witness :
    EventDetailView.put [sampleEvent] (some 2) 999 samplePayload =
      .error .notFoundError ∧
    EventDetailView.delete [sampleEvent] (some 2) 999 =
      .error .notFoundError ∧
    statusOf .notFoundError = 404 :=
  detail_view_unknown_id [sampleEvent] 999 2 samplePayload rfl

/-- The create endpoint never reads the payload's `organizer` field: the
serializer declares it read-only, so changing it changes nothing. -/
lemma post_ignores_payload_organizer (store : List Event) (c : Nat)
    (p : EventPayload) (o : Option Nat) :
    EventListCreateView.post store (some c) { p with organizer := o } =
      EventListCreateView.post store (some c) p := rfl

/-- Claim C2: every event created by an authenticated caller has that
caller as organizer; two create requests by the same caller that differ
only in a client-supplied `organizer` value produce identical results;
and `organizer` is among the serializer's read-only fields. -/
theorem create_forces_organizer (store : List Event) (c : Nat)
    (p : EventPayload) (o : Option Nat) (s2 : List Event) (e2 : Event)
    (hok : EventListCreateView.post store (some c) p = .ok (s2, e2)) :
    e2.organizer = c ∧
    EventListCreateView.post store (some c) { p with organizer := o } =
      .ok (s2, e2) ∧
    "organizer" ∈ EventSerializer.read_only_fields := by
  refine ⟨?_, ?_, by decide⟩
  · cases hv : EventSerializer.validFields p with
    | none => simp [EventListCreateView.post, hv] at hok
    | some v =>
      obtain ⟨n, d, l⟩ := v
      simp [EventListCreateView.post, hv] at hok
      obtain ⟨-, h2⟩ := hok
      rw [← h2]
  · rw [post_ignores_payload_organizer]
    exact hok

/-- Witness for C2: a concrete create whose payload smuggles
`organizer := some 42`; the stored organizer is still the caller (1). -/
theorem create_forces_organizer_witness :
    ({ id := 2, organizer := 1, name := "Updated Event", date := 5,
       location := "Updated Location", description := "Updated description",
       categories := [] } : Event).organizer = 1 ∧
    EventListCreateView.post [sampleEvent] (some 1)
        { samplePayload with organizer := some 42 } =
      .ok ([sampleEvent,
            { id := 2, organizer := 1, name := "Updated Event", date := 5,
              location := "Updated Location",
              description := "Updated description", categories := [] }],
           { id := 2, organizer := 1, name := "Updated Event", date := 5,
             location := "Updated Location",
             description := "Updated description", categories := [] }) ∧
    "organizer" ∈ EventSerializer.read_only_fields :=
  create_forces_organizer [sampleEvent] 1 samplePayload (some 42) _ _ rfl

/-- The three events of `test_search_functionality`. -/
def pythonConference : Event :=
  { id := 21, organizer := 1, name := "Python Conference", date := 30,
    location := "Conference Center",
    description := "A gathering of developers.", categories := [] }

def musicFestival : Event :=
  { id := 22, organizer := 1, name := "Music Festival", date := 45,
    location := "City Park",
    description := "Live bands and python-like stage decorations.",
    categories := [] }

def artShow : Event :=
  { id := 23, organizer := 1, name := "Art Show", date := 60,
    location := "Art Gallery", description := "Local artists exhibition.",
    categories := [] }

/-- Claim C4: the list endpoint with a search term returns an event iff
it is stored and, case-insensitively, its name starts with the term, or
its description contains it, or its location contains it — the union of
the three per-field matches. -/
theorem search_union (cats : List Category) (store : List Event) (c : Nat)
    (s : String) (e : Event) (res : List Event)
    (h : EventListCreateView.get cats store (some c) none none (some s) =
      .ok res) :
    e ∈ res ↔ e ∈ store ∧
      (iStartsWith e.name s = true ∨ iContains e.description s = true ∨
       iContains e.location s = true) := by
  have hres : res = store.filter (searchMatch s) := by
    simpa [EventListCreateView.get, applySearch, applyFilters,
      eq_comm] using h
  subst hres
  simp [List.mem_filter, searchMatch, Bool.or_eq_true, or_assoc]

/-- Witness for C4: searching "Python" returns the festival whose
description contains "python-like" even though its name and location do
not match. -/
theorem search_union_witness :
    musicFestival ∈ [pythonConference, musicFestival] ↔
      musicFestival ∈ [pythonConference, musicFestival, artShow] ∧
        (iStartsWith musicFestival.name "Python" = true ∨
         iContains musicFestival.description "Python" = true ∨
         iContains musicFestival.location "Python" = true) :=
  search_union [] [pythonConference, musicFestival, artShow] 1 "Python"
    musicFestival _ (by rfl)

/-- Claim C5: `location` and `categories__name` are exact-match filters
that combine by logical AND, `location` alone selects exactly the events
with that location value, and a search term is applied after the filters —
the final result is the filter result intersected with the search
matches. -/
theorem filters_and_then_search (cats : List Category) (store : List Event)
    (c : Nat) (L N s : String) (e : Event) :
    (EventListCreateView.get cats store (some c) (some L) (some N) none =
      .ok (store.filter
        (fun x => x.location == L && hasCategoryNamed cats x N))) ∧
    (e ∈ store.filter (fun x => x.location == L && hasCategoryNamed cats x N)
      ↔ e ∈ store ∧ e.location = L ∧ hasCategoryNamed cats e N = true) ∧
    (EventListCreateView.get cats store (some c) (some L) none none =
      .ok (store.filter (fun x => x.location == L))) ∧
    (e ∈ store.filter (fun x => x.location == L) ↔
      e ∈ store ∧ e.location = L) ∧
    (EventListCreateView.get cats store (some c) (some L) (some N) (some s) =
      .ok ((store.filter
        (fun x => x.location == L && hasCategoryNamed cats x N)).filter
          (searchMatch s))) ∧
    (e ∈ (store.filter
        (fun x => x.location == L && hasCategoryNamed cats x N)).filter
          (searchMatch s) ↔
      e ∈ store.filter (fun x => x.location == L && hasCategoryNamed cats x N)
        ∧ searchMatch s e = true) := by
  refine ⟨rfl, ?_, ?_, ?_, rfl, ?_⟩
  · simp [List.mem_filter, and_assoc]
  · simp [EventListCreateView.get, applySearch, applyFilters]
  · simp [List.mem_filter]
  · simp only [List.mem_filter, Bool.and_eq_true, beq_iff_eq, and_assoc]

/-- Claim C6: the page size is the fixed constant 10 (`paginate` takes no
client-supplied size), the list endpoint with no filters returns the whole
collection to be paginated, responses expose count/next/previous/results,
and with exactly 15 stored events page 1 holds 10 results with a non-null
next link while page 2 holds the remaining 5 with a null next link, both
reporting count 15. -/
theorem pagination_fifteen_events (cats : List Category)
    (store evs : List Event) (c : Nat) (h : evs.length = 15) :
    PAGE_SIZE = 10 ∧
    EventListCreateView.get cats store (some c) none none none = .ok store ∧
    paginate evs 1 =
      some { count := 15, next := some 2, previous := none,
             results := evs.take 10 } ∧
    (evs.take 10).length = 10 ∧
    paginate evs 2 =
      some { count := 15, next := none, previous := some 1,
             results := (evs.drop 10).take 10 } ∧
    ((evs.drop 10).take 10).length = 5 := by
  refine ⟨rfl, ?_, ?_, ?_, ?_, ?_⟩
  · simp [EventListCreateView.get, applySearch, applyFilters]
  · simp [paginate, PAGE_SIZE, h]
  · rw [List.length_take, h]; decide
  · simp [paginate, PAGE_SIZE, h]
  · rw [List.length_take, List.length_drop, h]; decide

/-- Witness for C6: fifteen concrete stored events, paginated. -/
theorem pagination_fifteen_events_witness :
    PAGE_SIZE = 10 ∧
    EventListCreateView.get [] [] (some 1) none none none = .ok [] ∧
    paginate (List.replicate 15 sampleEvent) 1 =
      some { count := 15, next := some 2, previous := none,
             results := (List.replicate 15 sampleEvent).take 10 } ∧
    ((List.replicate 15 sampleEvent).take 10).length = 10 ∧
    paginate (List.replicate 15 sampleEvent) 2 =
      some { count := 15, next := none, previous := some 1,
             results := ((List.replicate 15 sampleEvent).drop 10).take 10 } ∧
    (((List.replicate 15 sampleEvent).drop 10).take 10).length = 5 :=
  pagination_fifteen_events [] [] (List.replicate 15 sampleEvent) 1 rfl

/-- A concrete registered user for the account theorems. -/
def sampleUser : CustomUser :=
  { id := 1, email := "user_a@example.com", password := "password123" }

/-- Counterexample to C7 as stated: a login with a wrong password is
answered by `UserLoginView.post` with `serializer.errors` and
`status.HTTP_400_BAD_REQUEST` — status 400, not the claimed 401. -/
theorem login_bad_credentials_counterexample :
    (UserLoginView.post [sampleUser] [] "user_a@example.com" "wrong"
      "key1").status = 400 ∧
    ¬ (UserLoginView.post [sampleUser] [] "user_a@example.com" "wrong"
      "key1").status = 401 := by
  constructor <;> decide

/-- Claim C7 (amended): a login with invalid credentials (unknown email or
wrong password) fails with the serializer's validation errors and HTTP
status 400 — the status the spec's own interface table assigns to
`POST /login` — while a valid login answers 200 with the user's existing
or freshly issued token. -/
theorem login_status (users : List CustomUser) (ts : TokenStore)
    (email pw fresh : String) :
    match authenticate users email pw with
    | none =>
        UserLoginView.post users ts email pw fresh =
          { status := 400, token := none, users := users, tokens := ts } ∧
        statusOf .validationError = 400
    | some u =>
        UserLoginView.post users ts email pw fresh =
          { status := 200,
            token := some (getOrCreateToken ts u.id fresh).1,
            users := users,
            tokens := (getOrCreateToken ts u.id fresh).2 } := by
  cases ha : authenticate users email pw with
  | none => exact ⟨by simp [UserLoginView.post, ha], rfl⟩
  | some u => simp [UserLoginView.post, ha]

/-- Claim C8: logout by an authenticated caller always answers 200 with
the same detail message and deletes the caller's token; when the token is
already absent the store is left unchanged, and running logout twice gives
exactly the response of running it once. -/
theorem logout_idempotent (ts : TokenStore) (uid : Nat) :
    UserLogoutView.post ts (some uid) =
      { status := 200, detail := "Successfully logged out.",
        tokens := removeToken ts uid } ∧
    findToken (removeToken ts uid) uid = none ∧
    (findToken ts uid = none → removeToken ts uid = ts) ∧
    UserLogoutView.post (removeToken ts uid) (some uid) =
      UserLogoutView.post ts (some uid) := by
  refine ⟨rfl, ?_, ?_, ?_⟩
  · rw [findToken, Option.map_eq_none', List.find?_eq_none]
    intro x hx
    simp [removeToken, List.mem_filter] at hx
    simp [hx.2]
  · intro h
    rw [findToken, Option.map_eq_none', List.find?_eq_none] at h
    exact List.filter_eq_self.mpr (fun a ha => by simpa using h a ha)
  · simp [UserLogoutView.post, removeToken, List.filter_filter]

/-- Witness for C8: caller 2 has no live token, yet logout still answers
200 and leaves the token store exactly as it was. -/
theorem logout_idempotent_witness :
    UserLogoutView.post [(1, "key1")] (some 2) =
      { status := 200, detail := "Successfully logged out.",
        tokens := [(1, "key1")] } := by
  have h := logout_idempotent [(1, "key1")] 2
  rw [h.1, h.2.2.1 rfl]

/-- `get_or_create` returns the existing token untouched when the user
already has one. -/
lemma getOrCreate_existing (ts : TokenStore) (uid : Nat) (fresh k : String)
    (hk : findToken ts uid = some k) :
    getOrCreateToken ts uid fresh = (k, ts) := by
  unfold getOrCreateToken
  cases hf : ts.find? (fun t => t.1 == uid) with
  | none => simp [findToken, hf] at hk
  | some t =>
    simp [findToken, hf] at hk
    simp [hk]

/-- `get_or_create` preserves the one-token-per-user invariant. -/
lemma wfTokens_getOrCreate (ts : TokenStore) (uid : Nat) (fresh : String)
    (h : wfTokens ts) : wfTokens (getOrCreateToken ts uid fresh).2 := by
  unfold getOrCreateToken
  cases hf : ts.find? (fun t => t.1 == uid) with
  | some t => simpa using h
  | none =>
    have hnotin : uid ∉ ts.map Prod.fst := by
      rw [List.find?_eq_none] at hf
      intro hmem
      obtain ⟨t, htmem, ht⟩ := List.mem_map.mp hmem
      exact hf t htmem (by simp [ht])
    have hcons : (((uid, fresh) :: ts).map Prod.fst).Nodup := by
      rw [List.map_cons, List.nodup_cons]
      exact ⟨hnotin, h⟩
    exact hcons

/-- Token deletion preserves the one-token-per-user invariant. -/
lemma wfTokens_remove (ts : TokenStore) (uid : Nat) (h : wfTokens ts) :
    wfTokens (removeToken ts uid) :=
  List.Nodup.sublist (List.Sublist.map Prod.fst (List.filter_sublist ts)) h

/-- Claim C9: a user has at most one live token.  A login when the user
already has a token returns that token and leaves the store unchanged
(get-or-create semantics), and the no-duplicate-owner invariant
`wfTokens` is preserved by login, registration and logout. -/
theorem token_uniqueness (users : List CustomUser) (ts : TokenStore)
    (email pw fresh : String) (uid newId : Nat) (k : String)
    (h : wfTokens ts) :
    (findToken ts uid = some k → getOrCreateToken ts uid fresh = (k, ts)) ∧
    (∀ u, authenticate users email pw = some u →
      findToken ts u.id = some k →
      UserLoginView.post users ts email pw fresh =
        { status := 200, token := some k, users := users, tokens := ts }) ∧
    wfTokens (UserLoginView.post users ts email pw fresh).tokens ∧
    wfTokens (UserRegistrationView.post users ts email pw newId
      fresh).tokens ∧
    wfTokens (UserLogoutView.post ts (some uid)).tokens := by
  refine ⟨getOrCreate_existing ts uid fresh k, ?_, ?_, ?_, ?_⟩
  · intro u ha hk
    simp [UserLoginView.post, ha, getOrCreate_existing ts u.id fresh k hk]
  · unfold UserLoginView.post
    cases ha : authenticate users email pw with
    | none => simpa using h
    | some u => simpa using wfTokens_getOrCreate ts u.id fresh h
  · unfold UserRegistrationView.post
    split
    · simpa using h
    · simpa using wfTokens_getOrCreate ts newId fresh h
  · simpa [UserLogoutView.post] using wfTokens_remove ts uid h

/-- Witness for C9: user 1 already holds token `key1`; a second login does
not mint `key2` but returns the existing token with the store unchanged. -/
theorem token_uniqueness_witness :
    UserLoginView.post [sampleUser] [(1, "key1")] "user_a@example.com"
      "password123" "key2" =
      { status := 200, token := some "key1", users := [sampleUser],
        tokens := [(1, "key1")] } :=
  (token_uniqueness [sampleUser] [(1, "key1")] "user_a@example.com"
    "password123" "key2" 1 2 "key1" (by decide)).2.1 sampleUser
    (by decide) (by decide)

/-- A second concrete user and an event they organize, for the cascade
deletion witness. -/
def userB : CustomUser :=
  { id := 2, email := "user_b@example.com", password := "password123" }

def eventB : Event :=
  { id := 2, organizer := 2, name := "Event 2", date := 2,
    location := "Location", description := "Description for event 2",
    categories := [] }

/-- Claim C10: deleting a user cascades to every event they organize
(`on_delete=CASCADE`): afterwards no event of the deleted user remains —
so events can disappear through user deletion, not only via the delete
endpoint — and the events kept never dangle: every surviving event's
organizer is a surviving user. -/
theorem cascade_delete_user (users : List CustomUser) (store : List Event)
    (uid : Nat) (h : organizerValid users store) :
    (∀ e ∈ (deleteUser users store uid).2, e.organizer ≠ uid) ∧
    organizerValid (deleteUser users store uid).1
      (deleteUser users store uid).2 ∧
    (∀ e ∈ store, e.organizer = uid →
      e ∉ (deleteUser users store uid).2) := by
  refine ⟨?_, ?_, ?_⟩
  · intro e he
    simp [deleteUser, List.mem_filter] at he
    exact he.2
  · intro e he
    simp [deleteUser, List.mem_filter] at he ⊢
    obtain ⟨u, hu, hid⟩ := h e he.1
    exact ⟨u, ⟨hu, by rw [hid]; exact he.2⟩, hid⟩
  · intro e _ heq hmem
    simp [deleteUser, List.mem_filter] at hmem
    exact hmem.2 heq

/-- Witness for C10: deleting user 1 removes their event but keeps user
2's event, and the surviving store stays referentially valid. -/
theorem cascade_delete_user_witness :
    (∀ e ∈ (deleteUser [sampleUser, userB] [sampleEvent, eventB] 1).2,
      e.organizer ≠ 1) ∧
    organizerValid (deleteUser [sampleUser, userB] [sampleEvent, eventB] 1).1
      (deleteUser [sampleUser, userB] [sampleEvent, eventB] 1).2 ∧
    (∀ e ∈ [sampleEvent, eventB], e.organizer = 1 →
      e ∉ (deleteUser [sampleUser, userB] [sampleEvent, eventB] 1).2) :=
  cascade_delete_user [sampleUser, userB] [sampleEvent, eventB] 1
    (by decide)
